import Mathlib

/-!
Shallow embedding of the agentic-rag-aws backend
(`backend/lambda_src/`): configuration loading, the Bedrock service
wrapper (`retrieve`, `invoke_model`, `start_ingestion_job`), the
conversation service (`add_message`, `get_history`,
`ensure_conversation_exists`) and the knowledge-base ingestion Lambda
handler.  Remote AWS calls (botocore) are modelled as explicit
outcome-valued parameters; the tenacity retry decorator is modelled as
an explicit bounded retry loop.
-/

namespace AgenticRag

/-- Outcome of a single raw botocore call: either a `ClientError`
carrying an AWS fault code and message, or any other Python exception
(network error, parse error, ...) carrying its message. -/
inductive BotoFault where
  | clientError (code : String) (msg : String)
  | otherExn (msg : String)
deriving DecidableEq

/-- The Python-level exceptions the embedded code can surface.
`clientError` is botocore's `ClientError` re-raised for tenacity;
`retryError` is tenacity's `RetryError` (raised after retry exhaustion
when the decorator has no `reraise=True`, wrapping the last attempt's
exception); the three service errors are the repository's typed domain
errors from `utils/exceptions.py`, carrying message and details;
`attributeError` models Python's `AttributeError` on reading an object
attribute that was never defined; `valueError` models `ValueError`. -/
inductive PyError where
  | clientError (code : String) (msg : String)
  | retryError (last : PyError)
  | knowledgeBaseError (msg : String) (details : List (String × String))
  | conversationServiceError (msg : String) (details : List (String × String))
  | bedrockServiceError (msg : String) (details : List (String × String))
  | attributeError (name : String)
  | valueError (msg : String)
deriving DecidableEq

/-- `str(e)` of a botocore-level failure. -/
def faultMsg : BotoFault → String
  | .clientError _ m => m
  | .otherExn m => m

/-- Python truthiness of an optional string (`None` and `""` are falsy). -/
def pyTruthy : Option String → Bool
  | none => false
  | some s => !(s == "")

/-- The retry predicate of every decorator in the repository:
`retry_if_exception_type(ClientError)`. -/
def isClientErr : PyError → Bool
  | .clientError _ _ => true
  | _ => false

/-- Core loop of tenacity's `@retry(stop=stop_after_attempt(n), ...)`
without `reraise=True`: run the attempt; on success stop; on a
non-retryable exception re-raise it immediately; on a retryable
exception retry while fuel remains, and once fuel is exhausted raise
`RetryError` wrapping the last exception.  Returns the outcome together
with the number of attempts actually made.  `attempt` is the 0-based
index of the current attempt, `fuel` the number of further attempts
still allowed after it. -/
def tenacityGo (retryable : PyError → Bool) (f : Nat → Except PyError α) :
    Nat → Nat → Except PyError α × Nat
  | fuel, attempt =>
    match f attempt with
    | .ok a => (.ok a, attempt + 1)
    | .error e =>
      if retryable e then
        match fuel with
        | 0 => (.error (.retryError e), attempt + 1)
        | fuel' + 1 => tenacityGo retryable f fuel' (attempt + 1)
      else (.error e, attempt + 1)

/-- `@retry(stop=stop_after_attempt(maxAttempts), retry=retryable, ...)`
applied to a call whose per-attempt outcome is `f`. -/
def tenacityRun (maxAttempts : Nat) (retryable : PyError → Bool)
    (f : Nat → Except PyError α) : Except PyError α × Nat :=
  tenacityGo retryable f (maxAttempts - 1) 0

/-- The transient fault codes of `BedrockService.retrieve`. -/
def bedrockTransientErrors : List String :=
  ["ThrottlingException", "InternalServerException",
   "ServiceUnavailableException", "LimitExceededException"]

/-- The transient fault codes used throughout `ConversationService`. -/
def dynamoTransientErrors : List String :=
  ["ThrottlingException", "InternalServerException",
   "ServiceUnavailableException", "ProvisionedThroughputExceededException"]

/-! ## Configuration (`utils/config.py`) -/

/-- The attributes actually assigned on a `Config` object: the three
set in `Config.__init__` plus the two class attributes that carry a
default value.  (`utils/config.py` assigns no other attribute; in
particular neither `S3_DATA_SOURCE_ID` nor `CONVERSATIONS_TABLE_NAME`
is ever defined on it.) -/
structure Config where
  KNOWLEDGE_BASE_ID : String
  S3_BUCKET_NAME : String
  AWS_REGION : String
  DEFAULT_MODEL_ID : String
  FALLBACK_MODEL_ID : String
deriving DecidableEq

/-- Python attribute lookup `config.<name>` on a `Config` instance:
returns the attribute's value when it is one of the five defined
attributes, and raises `AttributeError` otherwise. -/
def Config.getattr (c : Config) (name : String) : Except PyError String :=
  if name == "KNOWLEDGE_BASE_ID" then .ok c.KNOWLEDGE_BASE_ID
  else if name == "S3_BUCKET_NAME" then .ok c.S3_BUCKET_NAME
  else if name == "AWS_REGION" then .ok c.AWS_REGION
  else if name == "DEFAULT_MODEL_ID" then .ok c.DEFAULT_MODEL_ID
  else if name == "FALLBACK_MODEL_ID" then .ok c.FALLBACK_MODEL_ID
  else .error (.attributeError name)

/-- A process environment: variable name / value pairs. -/
def Env := List (String × String)

/-- `os.getenv(name)`. -/
def getenv (env : Env) (name : String) : Option String :=
  (List.find? (fun p => p.1 == name) env).map (fun p => p.2)

/-- `Config._get_env_var(name, default, required)`. -/
def getEnvVar (env : Env) (name : String) (default : Option String)
    (required : Bool) : Except PyError String :=
  let value : Option String :=
    match getenv env name with
    | some v => some v
    | none => default
  if required && !(pyTruthy value) then
    .error (.valueError ("Required environment variable " ++ name ++ " is not set"))
  else .ok (value.getD "")

/-- Python `a or b` on optional strings. -/
def pyOr (a b : Option String) : Option String :=
  if pyTruthy a then a else b

/-- `Config._get_aws_region()`: `AWS_REGION` or `AWS_DEFAULT_REGION`
from the environment, else the boto3 session's region (modelled as the
`sessionRegion` argument, `none` when discovery fails), else
`"us-east-1"`. -/
def getAwsRegionFallback (env : Env) (sessionRegion : Option String) : String :=
  let region := pyOr (getenv env "AWS_REGION") (getenv env "AWS_DEFAULT_REGION")
  if pyTruthy region then region.getD ""
  else if pyTruthy sessionRegion then sessionRegion.getD ""
  else "us-east-1"

/-- `Config.__init__`: reads the required variables (failing fast when
one is missing) and carries the two class-level model-id defaults. -/
def buildConfig (env : Env) (sessionRegion : Option String) : Except PyError Config :=
  match getEnvVar env "KNOWLEDGE_BASE_ID" none true with
  | .error e => .error e
  | .ok kb =>
    match getEnvVar env "S3_BUCKET_NAME" none true with
    | .error e => .error e
    | .ok bucket =>
      match getEnvVar env "AWS_REGION" (some (getAwsRegionFallback env sessionRegion)) true with
      | .error e => .error e
      | .ok region =>
        .ok { KNOWLEDGE_BASE_ID := kb, S3_BUCKET_NAME := bucket, AWS_REGION := region,
              DEFAULT_MODEL_ID := "anthropic.claude-3-haiku-20240307-v1:0",
              FALLBACK_MODEL_ID := "meta.llama3-1-8b-instruct-v1:0" }

/-- The attributes `BedrockService.__init__` stores from configuration. -/
structure BedrockServiceState where
  region : String
  knowledge_base_id : String
  s3_data_source_id : String
deriving DecidableEq

/-- `BedrockService.__init__(region)`: `self.region = region or
config.AWS_REGION`, then `self.knowledge_base_id =
config.KNOWLEDGE_BASE_ID` and `self.s3_data_source_id =
config.S3_DATA_SOURCE_ID`, each attribute read modelled by
`Config.getattr`.  (The boto3 client constructions in between read no
configuration attribute beyond the region already resolved.) -/
def bedrockServiceInit (c : Config) (region : Option String) :
    Except PyError BedrockServiceState :=
  match (if pyTruthy region then .ok (region.getD "") else c.getattr "AWS_REGION") with
  | .error e => .error e
  | .ok r =>
    match c.getattr "KNOWLEDGE_BASE_ID" with
    | .error e => .error e
    | .ok kb =>
      match c.getattr "S3_DATA_SOURCE_ID" with
      | .error e => .error e
      | .ok ds => .ok { region := r, knowledge_base_id := kb, s3_data_source_id := ds }

/-- The state `ConversationService.__init__` stores. -/
structure ConversationServiceState where
  table_name : String
deriving DecidableEq

/-- `ConversationService.__init__()`: builds the DynamoDB resource with
`config.AWS_REGION` and binds the table named
`config.CONVERSATIONS_TABLE_NAME`, each attribute read modelled by
`Config.getattr`. -/
def conversationServiceInit (c : Config) : Except PyError ConversationServiceState :=
  match c.getattr "AWS_REGION" with
  | .error e => .error e
  | .ok _ =>
    match c.getattr "CONVERSATIONS_TABLE_NAME" with
    | .error e => .error e
    | .ok tbl => .ok { table_name := tbl }

/-! ## Bedrock retrieval (`services/bedrock_service.py`, `retrieve`) -/

/-- The request parameters `retrieve` places in the outbound
`bedrock_agent_runtime.retrieve(**params)` call: the number of results
is `min(max_results, 10)` and `nextToken` is included only when the
caller's token is truthy. -/
structure RetrieveParams where
  knowledgeBaseId : String
  queryText : String
  numberOfResults : Int
  nextToken : Option String
deriving DecidableEq

/-- Construction of the outbound parameters in `retrieve`. -/
def mkRetrieveParams (kbId query : String) (maxResults : Int)
    (nextToken : Option String) : RetrieveParams :=
  { knowledgeBaseId := kbId, queryText := query,
    numberOfResults := min maxResults 10,
    nextToken := if pyTruthy nextToken then nextToken else none }

/-- The retrieval response payload; its structure is irrelevant to the
claims, so each retrieved chunk is kept as its raw text. -/
abbrev RetrieveResp := List String

/-- One attempt of `BedrockService.retrieve`: call the remote
capability; re-raise a `ClientError` whose code is in the transient set
(for tenacity); wrap any other `ClientError`, and any non-ClientError
exception, into `KnowledgeBaseError` with the documented details. -/
def retrieveOnce (kbId query : String) (maxResults : Int) (nextToken : Option String)
    (agentRuntime : RetrieveParams → Except BotoFault RetrieveResp) :
    Except PyError RetrieveResp :=
  match agentRuntime (mkRetrieveParams kbId query maxResults nextToken) with
  | .ok r => .ok r
  | .error (.clientError code msg) =>
    if bedrockTransientErrors.contains code then .error (.clientError code msg)
    else .error (.knowledgeBaseError ("Bedrock API error: " ++ msg)
      [("error_code", code), ("query", query), ("knowledge_base_id", kbId)])
  | .error (.otherExn msg) =>
    .error (.knowledgeBaseError ("Failed to retrieve from knowledge base: " ++ msg)
      [("query", query), ("knowledge_base_id", kbId)])

/-- `BedrockService.retrieve` with its tenacity decorator
(`stop_after_attempt(3)`, `retry_if_exception_type(ClientError)`).
`agentRuntime n` is the remote capability's behaviour on the `n`-th
attempt.  Returns the outcome and the number of attempts made. -/
def retrieve (kbId query : String) (maxResults : Int) (nextToken : Option String)
    (agentRuntime : Nat → RetrieveParams → Except BotoFault RetrieveResp) :
    Except PyError RetrieveResp × Nat :=
  tenacityRun 3 isClientErr
    (fun n => retrieveOnce kbId query maxResults nextToken (agentRuntime n))

/-! ## Bedrock model invocation (`invoke_model`) -/

/-- A chat message dict with `role` and `content`. -/
structure ChatMsg where
  role : String
  content : String
deriving DecidableEq

/-- The Claude-family request body built by `_invoke_claude`.  The
temperature is a float the code never inspects, so the embedding is
polymorphic in its type `τ`. -/
structure ClaudeBody (τ : Type) where
  anthropic_version : String
  max_tokens : Int
  temperature : τ
  messages : List ChatMsg
  system_prompt : Option String
deriving DecidableEq

/-- The Llama-family request body built by `_invoke_llama`. -/
structure LlamaBody (τ : Type) where
  messages : List ChatMsg
  temperature : τ
  max_gen_len : Int
deriving DecidableEq

/-- The request envelope sent to `bedrock_runtime.invoke_model`. -/
inductive InvokeBody (τ : Type) where
  | claude (b : ClaudeBody τ)
  | llama (b : LlamaBody τ)
deriving DecidableEq

/-- Body construction in `_invoke_claude`: fixed protocol version tag,
and the `system_prompt` field present only when the argument is truthy. -/
def mkClaudeBody (maxTokens : Int) (temperature : τ) (messages : List ChatMsg)
    (system_prompt : Option String) : ClaudeBody τ :=
  { anthropic_version := "bedrock-2023-05-31", max_tokens := maxTokens,
    temperature := temperature, messages := messages,
    system_prompt := if pyTruthy system_prompt then system_prompt else none }

/-- Body construction in `_invoke_llama`. -/
def mkLlamaBody (messages : List ChatMsg) (temperature : τ) (maxTokens : Int) :
    LlamaBody τ :=
  { messages := messages, temperature := temperature, max_gen_len := maxTokens }

/-- Whether `needle` is an initial segment of `haystack`. -/
def startsWithChars : List Char → List Char → Bool
  | [], _ => true
  | _ :: _, [] => false
  | a :: as, b :: bs => a == b && startsWithChars as bs

/-- Whether `needle` occurs contiguously anywhere in `haystack`
(Python's `needle in haystack` on strings, over char lists). -/
def occursIn (needle : List Char) : List Char → Bool
  | [] => needle.isEmpty
  | b :: bs => startsWithChars needle (b :: bs) || occursIn needle bs

/-- The dispatch test `sub in model_id.lower()` of `invoke_model`
(`sub` is a lowercase literal at both call sites; model ids are ASCII,
so `str.lower()` is per-character `Char.toLower`). -/
def containsSub (s sub : String) : Bool :=
  occursIn sub.data (s.data.map Char.toLower)

/-- The `except` ladder of `invoke_model` around a family call: a
successful remote call returns the extracted text; any exception from
the call (ClientError or other) is wrapped into a generic
`BedrockServiceError` carrying the model id. -/
def wrapInvoke (model_id : String) : Except BotoFault String → Except PyError String
  | .ok text => .ok text
  | .error f => .error (.bedrockServiceError
      ("Failed to invoke model " ++ model_id ++ ": " ++ faultMsg f)
      [("model_id", model_id)])

/-- `BedrockService.invoke_model`: dispatch on the model id
(case-insensitive substring, Claude before Llama); an unrecognized id
raises the unsupported-model `BedrockServiceError` before any remote
call.  `runtime` is the remote invocation capability (the call plus the
family-specific response-text extraction); the second component counts
the remote calls made.  The function has no retry decorator, so each
branch performs at most one remote call. -/
def invoke_model (model_id : String) (messages : List ChatMsg)
    (system_prompt : Option String) (temperature : τ) (max_tokens : Int)
    (runtime : String → InvokeBody τ → Except BotoFault String) :
    Except PyError String × Nat :=
  if containsSub model_id "claude" then
    (wrapInvoke model_id
      (runtime model_id (.claude (mkClaudeBody max_tokens temperature messages system_prompt))), 1)
  else if containsSub model_id "llama" then
    (wrapInvoke model_id
      (runtime model_id (.llama (mkLlamaBody messages temperature max_tokens))), 1)
  else
    (.error (.bedrockServiceError ("Unsupported model: " ++ model_id)
      [("model_id", model_id)]), 0)

/-! ## Ingestion job (`start_ingestion_job`) and the Lambda handler
(`handlers/knowledge_base_handler.py`) -/

/-- The fields of the `ingestionJob` payload the handler reads. -/
structure IngestionJob where
  ingestionJobId : String
  status : String
deriving DecidableEq

/-- `BedrockService.start_ingestion_job`: defaults the data source to
the configured one when the argument is falsy, calls the remote
capability once (no retry decorator), and wraps any failure into
`KnowledgeBaseError`. -/
def start_ingestion_job (kbId : String) (dataSourceId : Option String)
    (defaultDs : String) (boto : String → String → Except BotoFault IngestionJob) :
    Except PyError IngestionJob :=
  let ds := if pyTruthy dataSourceId then dataSourceId.getD "" else defaultDs
  match boto kbId ds with
  | .ok job => .ok job
  | .error f => .error (.knowledgeBaseError ("Failed to start ingestion job: " ++ faultMsg f)
      [("knowledge_base_id", kbId), ("data_source_id", ds)])

/-- One record of the S3 upload-notification batch, as extracted by the
handler (`record["s3"]["bucket"]["name"]`, `record["s3"]["object"]["key"]`). -/
structure S3ObjectRef where
  bucket : String
  key : String
deriving DecidableEq

/-- The JSON body the handler returns (both the no-records body and the
success body are instances; absent JSON keys are `none`, `[]`, `0`). -/
structure KbHandlerBody where
  message : String
  ingestion_job_id : Option String
  status : Option String
  files_triggered : List S3ObjectRef
  files_count : Nat
deriving DecidableEq

/-- The handler's HTTP-style response. -/
structure KbHandlerResp where
  statusCode : Nat
  body : KbHandlerBody
deriving DecidableEq

/-- `handler` in `knowledge_base_handler.py`: parse the records; an
empty batch returns the no-op success response before any service is
constructed; a non-empty batch first constructs `BedrockService()`
(with no region argument — any exception there is caught by the
handler's generic except clause, logged and re-raised), then makes one
`start_ingestion_job` call on it (a failure of which is likewise
re-raised), and on success returns the body enumerating every notified
object with the single job's id and status.  The second component
counts the re-indexing job start calls made. -/
def kbHandler (records : List S3ObjectRef) (c : Config)
    (boto : String → String → Except BotoFault IngestionJob) :
    Except PyError KbHandlerResp × Nat :=
  if records.isEmpty then
    (.ok { statusCode := 200,
           body := { message := "No records to process", ingestion_job_id := none,
                     status := none, files_triggered := [], files_count := 0 } }, 0)
  else
    match bedrockServiceInit c none with
    | .error e => (.error e, 0)
    | .ok svc =>
      match start_ingestion_job svc.knowledge_base_id none svc.s3_data_source_id boto with
      | .ok job =>
        (.ok { statusCode := 200,
               body := { message := "Ingestion job started",
                         ingestion_job_id := some job.ingestionJobId,
                         status := some job.status,
                         files_triggered := records,
                         files_count := records.length } }, 1)
      | .error e => (.error e, 1)

/-! ## Conversation service (`services/conversation_service.py`)

The DynamoDB table is modelled as a list of message items in arbitrary
physical order.  `put_item` follows DynamoDB semantics: it replaces any
item with the same primary key (partition key `conversation_id`, sort
key `message_id`) and otherwise inserts.  `query` returns the partition's
items in ascending sort-key order. -/

/-- A stored message item.  `created_at` carries the creation instant
in microseconds since the epoch; the source serialises the same instant
as an ISO-8601 string, a rendering irrelevant to the claims.  `ttl` is
in seconds since the epoch. -/
structure MessageItem where
  conversation_id : String
  message_id : Int
  role : String
  content : String
  created_at : Int
  ttl : Int
  metadata : Option (List (String × String))
deriving DecidableEq

/-- The item `add_message` builds at instant `nowMicros` (microseconds
since the epoch): `message_id = int(now.timestamp() * 1000000)`,
`ttl = int((now + timedelta(days=1)).timestamp())`, and the `metadata`
key present only when the argument is truthy (a non-empty dict). -/
def mkMessageItem (cid : String) (nowMicros : Int) (role content : String)
    (md : Option (List (String × String))) : MessageItem :=
  { conversation_id := cid, message_id := nowMicros, role := role, content := content,
    created_at := nowMicros, ttl := nowMicros / 1000000 + 86400,
    metadata := match md with
      | some m => if m.isEmpty then none else some m
      | none => none }

/-- DynamoDB `put_item`: replace the item with the same primary key if
present, otherwise insert. -/
def putItemTable (store : List MessageItem) (item : MessageItem) : List MessageItem :=
  (store.filter (fun m =>
    !(m.conversation_id == item.conversation_id && m.message_id == item.message_id)))
    ++ [item]

/-- Sort-key comparison used to model DynamoDB's ascending query order. -/
def msgLe (a b : MessageItem) : Bool :=
  a.message_id ≤ b.message_id

/-- DynamoDB `query` on partition `cid` (ascending by sort key, the
`ScanIndexForward=True` / default ordering): the partition's items of
the physical store, sorted by `message_id`. -/
def querySorted (store : List MessageItem) (cid : String) : List MessageItem :=
  (store.filter (fun m => m.conversation_id == cid)).mergeSort msgLe

/-- One attempt of `ConversationService.add_message` at instant
`nowMicros`: build the item and `put_item` it; a transient
`ClientError` is re-raised for tenacity, any other `ClientError` and
any other exception become `ConversationServiceError`.  On success the
new table state is returned.  `putOutcome` is the remote call's
outcome (`.ok` meaning the write was applied). -/
def add_message_once (store : List MessageItem) (nowMicros : Int)
    (cid role content : String) (md : Option (List (String × String)))
    (putOutcome : MessageItem → Except BotoFault Unit) :
    Except PyError (List MessageItem) :=
  let item := mkMessageItem cid nowMicros role content md
  match putOutcome item with
  | .ok _ => .ok (putItemTable store item)
  | .error (.clientError code msg) =>
    if dynamoTransientErrors.contains code then .error (.clientError code msg)
    else .error (.conversationServiceError
      ("Failed to add message to conversation in DynamoDB: " ++ msg)
      [("conversation_id", cid), ("message_id", toString nowMicros), ("error_code", code)])
  | .error (.otherExn msg) =>
    .error (.conversationServiceError
      ("Unexpected error adding message to conversation: " ++ msg)
      [("conversation_id", cid), ("message_id", toString nowMicros)])

/-- `ConversationService.add_message` with its tenacity decorator
(3 attempts, retry on `ClientError` only).  `putOutcome n` is the
remote write's behaviour on the `n`-th attempt.  Returns the outcome
(the new table state on success) and the number of attempts made. -/
def add_message (store : List MessageItem) (nowMicros : Int)
    (cid role content : String) (md : Option (List (String × String)))
    (putOutcome : Nat → MessageItem → Except BotoFault Unit) :
    Except PyError (List MessageItem) × Nat :=
  tenacityRun 3 isClientErr
    (fun n => add_message_once store nowMicros cid role content md (putOutcome n))

/-- One attempt of `ConversationService.get_history`: on a successful
query, project each returned item to its `{role, content}` pair; fault
handling as in `add_message`.  `queryResult` is the remote query's
outcome. -/
def get_history_once (cid : String)
    (queryResult : Except BotoFault (List MessageItem)) :
    Except PyError (List (String × String)) :=
  match queryResult with
  | .ok items => .ok (items.map (fun m => (m.role, m.content)))
  | .error (.clientError code msg) =>
    if dynamoTransientErrors.contains code then .error (.clientError code msg)
    else .error (.conversationServiceError
      ("Failed to get conversation history from DynamoDB: " ++ msg)
      [("conversation_id", cid), ("error_code", code)])
  | .error (.otherExn msg) =>
    .error (.conversationServiceError
      ("Unexpected error getting conversation history: " ++ msg)
      [("conversation_id", cid)])

/-- `ConversationService.get_history` against a live store (the remote
query succeeds and returns the partition ascending by sort key). -/
def get_history (store : List MessageItem) (cid : String) :
    Except PyError (List (String × String)) :=
  get_history_once cid (.ok (querySorted store cid))

/-- The generated id `f"conv-{uuid.uuid4().hex[:12]}"`; `rand` models
`uuid4().hex`, a 32-character lowercase-hex string. -/
def freshId (rand : List Char) : String :=
  "conv-" ++ String.mk (rand.take 12)

/-- One pass of `ConversationService.ensure_conversation_exists`: a
falsy id (`None` or `""`) skips the probe entirely; otherwise the
existence probe (`query` with `Limit=1`) decides between echoing the id
and generating a fresh one; probe faults are classified as in the other
operations.  `probe` is the remote existence query. -/
def ensureOnce (cid? : Option String)
    (probe : String → Except BotoFault (List MessageItem)) (rand : List Char) :
    Except PyError String :=
  match cid? with
  | some cid =>
    if cid == "" then .ok (freshId rand)
    else
      match probe cid with
      | .ok items => if items.isEmpty then .ok (freshId rand) else .ok cid
      | .error (.clientError code msg) =>
        if dynamoTransientErrors.contains code then .error (.clientError code msg)
        else .error (.conversationServiceError
          ("DynamoDB error checking conversation existence: " ++ msg)
          [("conversation_id", cid), ("error_code", code)])
      | .error (.otherExn msg) =>
        .error (.conversationServiceError
          ("Unexpected error checking conversation existence: " ++ msg)
          [("conversation_id", cid)])
  | none => .ok (freshId rand)

/-- The live-store probe: `query(conversation_id, Limit=1)` returns the
first item (at most one) of the partition in ascending sort-key order. -/
def honestProbe (store : List MessageItem) :
    String → Except BotoFault (List MessageItem) :=
  fun cid => .ok ((querySorted store cid).take 1)

/-- `ensure_conversation_exists` against a live store. -/
def ensure_conversation_exists (store : List MessageItem) (cid? : Option String)
    (rand : List Char) : Except PyError String :=
  ensureOnce cid? (honestProbe store) rand

/-- Lowercase hexadecimal digit (the alphabet of `uuid4().hex`). -/
def isLowerHex (c : Char) : Bool :=
  ("0123456789abcdef".data).contains c

/-- The shape of a freshly generated conversation id: `conv-` followed
by 12 lowercase-hex characters. -/
def isFreshShape (s : String) : Prop :=
  ∃ t : List Char, s = "conv-" ++ String.mk t ∧ t.length = 12 ∧
    ∀ c ∈ t, isLowerHex c = true

/-! ## Claim theorems -/

/-- C1: a transient fault code is retried up to 3 attempts total, and a
non-transient fault code surfaces the typed domain error on the first
attempt with no retry — but, contrary to the claim, exhausting the
retries surfaces tenacity's `RetryError` wrapping the last
`ClientError`, not the typed `KnowledgeBaseError` /
`ConversationServiceError` the code's own docstrings promise: the
decorators lack `reraise=True` and no except-clause runs after the
final attempt.  Evaluated here on `retrieve` and `add_message` with a
remote call that fails identically on every attempt. -/
theorem C1_retry_exhaustion_not_typed :
    retrieve "kb" "q" 5 none
        (fun _ _ => .error (.clientError "ThrottlingException" "throttled"))
      = (.error (.retryError (.clientError "ThrottlingException" "throttled")), 3)
    ∧ retrieve "kb" "q" 5 none
        (fun _ _ => .error (.clientError "AccessDeniedException" "denied"))
      = (.error (.knowledgeBaseError "Bedrock API error: denied"
          [("error_code", "AccessDeniedException"), ("query", "q"),
           ("knowledge_base_id", "kb")]), 1)
    ∧ add_message ([] : List MessageItem) 0 "c" "user" "hi" none
        (fun _ _ => .error (.clientError "ThrottlingException" "busy"))
      = (.error (.retryError (.clientError "ThrottlingException" "busy")), 3)
    ∧ add_message ([] : List MessageItem) 0 "c" "user" "hi" none
        (fun _ _ => .error (.clientError "ValidationException" "bad"))
      = (.error (.conversationServiceError
          "Failed to add message to conversation in DynamoDB: bad"
          [("conversation_id", "c"), ("message_id", "0"),
           ("error_code", "ValidationException")]), 1) :=
  ⟨rfl, rfl, rfl, rfl⟩

/-- C2: the configuration object can be built from an environment
holding all required values, yet constructing either service always
fails — `BedrockService.__init__` reads `config.S3_DATA_SOURCE_ID` and
`ConversationService.__init__` reads `config.CONVERSATIONS_TABLE_NAME`,
attributes `Config` never defines, so both constructions raise
`AttributeError`, contradicting the claim that construction succeeds
whenever the required configuration values are present. -/
theorem C2_missing_config_attributes :
    (∃ c : Config,
      buildConfig [("KNOWLEDGE_BASE_ID", "kb-123"), ("S3_BUCKET_NAME", "docs"),
                   ("AWS_REGION", "us-east-1")] none = .ok c)
    ∧ (∀ (c : Config) (region : Option String),
        bedrockServiceInit c region = .error (.attributeError "S3_DATA_SOURCE_ID"))
    ∧ (∀ c : Config,
        conversationServiceInit c = .error (.attributeError "CONVERSATIONS_TABLE_NAME")) := by
  refine ⟨⟨_, rfl⟩, fun c region => ?_, fun c => rfl⟩
  cases h : pyTruthy region <;> simp [bedrockServiceInit, h, Config.getattr]

/-- C3 counterexample: for `max_results = 0` the outbound
`numberOfResults` is `0`, outside the claimed range `[1, 10]` — the
code applies only `min(max_results, 10)`, no lower clamp. -/
theorem C3_no_lower_clamp :
    (mkRetrieveParams "kb" "q" 0 none).numberOfResults = 0 ∧
    ¬(1 ≤ (mkRetrieveParams "kb" "q" 0 none).numberOfResults ∧
      (mkRetrieveParams "kb" "q" 0 none).numberOfResults ≤ 10) := by
  decide

/-- C3 (amended): the number-of-results value placed in the outbound
retrieval request is `min(max_results, 10)`: it never exceeds 10, it is
exactly 10 for every input strictly greater than 10, and every input at
most 10 (including values below 1) is passed through unchanged. -/
theorem C3_upper_clamp (kb q : String) (m : Int) (t : Option String) :
    (mkRetrieveParams kb q m t).numberOfResults ≤ 10
    ∧ (10 < m → (mkRetrieveParams kb q m t).numberOfResults = 10)
    ∧ (m ≤ 10 → (mkRetrieveParams kb q m t).numberOfResults = m) := by
  refine ⟨?_, fun h => ?_, fun h => ?_⟩ <;> simp [mkRetrieveParams] <;> omega

/-- C3 witness: the amended claim evaluated at `max_results = 11`
(clamped to 10) and `max_results = 3` (passed through). -/
theorem C3_upper_clamp_witness :
    (mkRetrieveParams "kb" "q" 11 none).numberOfResults = 10
    ∧ (mkRetrieveParams "kb" "q" 3 none).numberOfResults = 3 :=
  ⟨(C3_upper_clamp "kb" "q" 11 none).2.1 (by decide),
   (C3_upper_clamp "kb" "q" 3 none).2.2 (by decide)⟩

/-- C10: `ensure_conversation_exists` treats a falsy supplied id
(`None` or `""`) uniformly: the probe is never consulted (the result is
the same for every probe behaviour, even a faulting one) and a freshly
generated id is returned, so an empty string is never echoed back. -/
theorem C10_falsy_id_fresh (probe probe' : String → Except BotoFault (List MessageItem))
    (rand : List Char) :
    ensureOnce (some "") probe rand = .ok (freshId rand)
    ∧ ensureOnce none probe' rand = .ok (freshId rand)
    ∧ ensureOnce (some "") probe rand = ensureOnce none probe' rand :=
  ⟨rfl, rfl, rfl⟩

/-- C4: `invoke_model` routes by case-insensitive substring on the
model id — containing `claude` builds the Claude-style envelope,
otherwise containing `llama` builds the Llama-style envelope, and
otherwise it fails with the unsupported-model `BedrockServiceError`
carrying the model id, with zero remote calls made (and no retry: the
function performs at most one remote call in every branch). -/
theorem C4_dispatch {τ : Type} (model_id : String) (messages : List ChatMsg)
    (system_prompt : Option String) (temperature : τ) (max_tokens : Int)
    (runtime : String → InvokeBody τ → Except BotoFault String) :
    (containsSub model_id "claude" = true →
      invoke_model model_id messages system_prompt temperature max_tokens runtime
        = (wrapInvoke model_id (runtime model_id
            (.claude (mkClaudeBody max_tokens temperature messages system_prompt))), 1))
    ∧ (containsSub model_id "claude" = false → containsSub model_id "llama" = true →
      invoke_model model_id messages system_prompt temperature max_tokens runtime
        = (wrapInvoke model_id (runtime model_id
            (.llama (mkLlamaBody messages temperature max_tokens))), 1))
    ∧ (containsSub model_id "claude" = false → containsSub model_id "llama" = false →
      invoke_model model_id messages system_prompt temperature max_tokens runtime
        = (.error (.bedrockServiceError ("Unsupported model: " ++ model_id)
            [("model_id", model_id)]), 0)) :=
  ⟨fun h1 => by simp [invoke_model, h1],
   fun h1 h2 => by simp [invoke_model, h1, h2],
   fun h1 h2 => by simp [invoke_model, h1, h2]⟩

/-- C4 witness: the dispatch evaluated on a Claude id, a Llama id and
an unrecognized id. -/
theorem C4_dispatch_witness :
    invoke_model "anthropic.CLAUDE-3-haiku-20240307-v1:0" [] none () 2048
        (fun _ _ => .ok "hello")
      = (.ok "hello", 1)
    ∧ invoke_model "meta.llama3-1-8b-instruct-v1:0" [] none () 2048
        (fun _ _ => .ok "hello")
      = (.ok "hello", 1)
    ∧ invoke_model "amazon.titan-text-express-v1" [] none () 2048
        (fun _ _ => .ok "hello")
      = (.error (.bedrockServiceError "Unsupported model: amazon.titan-text-express-v1"
          [("model_id", "amazon.titan-text-express-v1")]), 0) :=
  ⟨(C4_dispatch "anthropic.CLAUDE-3-haiku-20240307-v1:0" [] none () 2048
      (fun _ _ => .ok "hello")).1 (by decide),
   (C4_dispatch "meta.llama3-1-8b-instruct-v1:0" [] none () 2048
      (fun _ _ => .ok "hello")).2.1 (by decide) (by decide),
   (C4_dispatch "amazon.titan-text-express-v1" [] none () 2048
      (fun _ _ => .ok "hello")).2.2 (by decide) (by decide)⟩

/-- A `put_item` whose primary key collides with no stored item is a
pure append. -/
theorem putItemTable_fresh (store : List MessageItem) (item : MessageItem)
    (hfresh : ∀ m ∈ store,
      ¬(m.conversation_id = item.conversation_id ∧ m.message_id = item.message_id)) :
    putItemTable store item = store ++ [item] := by
  unfold putItemTable
  congr 1
  apply List.filter_eq_self.mpr
  intro m hm
  have h2 := hfresh m hm
  by_cases hc : m.conversation_id = item.conversation_id
  · have h3 : (m.message_id == item.message_id) = false :=
      beq_eq_false_iff_ne.mpr (fun h4 => h2 ⟨hc, h4⟩)
    simp [h3]
  · have h3 : (m.conversation_id == item.conversation_id) = false :=
      beq_eq_false_iff_ne.mpr hc
    simp [h3]

/-- C5: a successful `add_message` at instant `now` (microseconds since
the epoch) appends exactly one new record whose message id is `now` and
whose expiry is its own creation time plus 1 day (86400 seconds), and
every previously stored record — in particular every earlier message of
the same conversation, with its expiry — is still present unchanged.
The hypothesis `hfresh` states that no stored item already carries the
new primary key, which holds for any append later than all existing
message ids. -/
theorem C5_append_immutable (store : List MessageItem) (now : Int)
    (cid role content : String) (md : Option (List (String × String)))
    (st' : List MessageItem)
    (hfresh : ∀ m ∈ store, ¬(m.conversation_id = cid ∧ m.message_id = now))
    (h : (add_message store now cid role content md (fun _ _ => .ok ())).1 = .ok st') :
    st' = store ++ [mkMessageItem cid now role content md]
    ∧ (mkMessageItem cid now role content md).message_id = now
    ∧ (mkMessageItem cid now role content md).ttl
        = (mkMessageItem cid now role content md).created_at / 1000000 + 86400
    ∧ ∀ m ∈ store, m ∈ st' := by
  have hred : (add_message store now cid role content md (fun _ _ => .ok ())).1
      = .ok (putItemTable store (mkMessageItem cid now role content md)) := rfl
  rw [hred] at h
  have hst : putItemTable store (mkMessageItem cid now role content md) = st' :=
    Except.ok.inj h
  have happ : st' = store ++ [mkMessageItem cid now role content md] := by
    rw [← hst, putItemTable_fresh store _ hfresh]
  refine ⟨happ, rfl, rfl, fun m hm => ?_⟩
  rw [happ]
  exact List.mem_append_left _ hm

/-- C5 witness: appending to a conversation holding one earlier message
leaves that message (and its expiry) untouched and appends the new item
with microsecond-epoch message id and creation-plus-one-day expiry. -/
theorem C5_append_immutable_witness :
    ([mkMessageItem "c" 1 "user" "old" none] ++ [mkMessageItem "c" 5000000 "user" "hi" none]
      = [mkMessageItem "c" 1 "user" "old" none] ++ [mkMessageItem "c" 5000000 "user" "hi" none])
    ∧ (mkMessageItem "c" 5000000 "user" "hi" none).message_id = 5000000
    ∧ (mkMessageItem "c" 5000000 "user" "hi" none).ttl
        = (mkMessageItem "c" 5000000 "user" "hi" none).created_at / 1000000 + 86400
    ∧ ∀ m ∈ [mkMessageItem "c" 1 "user" "old" none],
        m ∈ [mkMessageItem "c" 1 "user" "old" none]
          ++ [mkMessageItem "c" 5000000 "user" "hi" none] :=
  C5_append_immutable [mkMessageItem "c" 1 "user" "old" none] 5000000 "c" "user" "hi" none
    ([mkMessageItem "c" 1 "user" "old" none] ++ [mkMessageItem "c" 5000000 "user" "hi" none])
    (by decide) rfl

/-- C6: `ensure_conversation_exists` echoes back any non-empty id
under which at least one message is stored; with no id supplied, or an
id whose limit-1 existence probe finds no messages, it returns a fresh
id of the shape `conv-` followed by 12 lowercase-hex characters (`rand`
models `uuid4().hex`, a 32-character lowercase-hex string).  A stored
message's conversation id is necessarily non-empty (DynamoDB rejects
empty partition-key values), so the non-emptiness hypothesis is
implicit in the claim's premise. -/
theorem C6_resolve_or_create (store : List MessageItem) (rand : List Char)
    (hlen : rand.length = 32) (hhex : ∀ c ∈ rand, isLowerHex c = true) :
    (∀ cid : String, cid ≠ "" → (∃ m ∈ store, m.conversation_id = cid) →
      ensure_conversation_exists store (some cid) rand = .ok cid)
    ∧ ensure_conversation_exists store none rand = .ok (freshId rand)
    ∧ (∀ cid : String, (∀ m ∈ store, m.conversation_id ≠ cid) →
      ensure_conversation_exists store (some cid) rand = .ok (freshId rand))
    ∧ isFreshShape (freshId rand) := by
  refine ⟨?_, rfl, ?_, ?_⟩
  · intro cid hne hex
    obtain ⟨m, hm, hcid⟩ := hex
    have hbeq : (cid == "") = false := beq_eq_false_iff_ne.mpr hne
    have hmem : m ∈ querySorted store cid := by
      simp only [querySorted, List.mem_mergeSort, List.mem_filter]
      exact ⟨hm, by simp [hcid]⟩
    have hne2 : querySorted store cid ≠ [] := List.ne_nil_of_mem hmem
    have htake : ((querySorted store cid).take 1).isEmpty = false := by
      cases hq : querySorted store cid with
      | nil => exact absurd hq hne2
      | cons a l => simp [hq]
    simp [ensure_conversation_exists, ensureOnce, honestProbe, hbeq, htake]
  · intro cid hall
    by_cases hcid : cid = ""
    · subst hcid; rfl
    · have hbeq : (cid == "") = false := beq_eq_false_iff_ne.mpr hcid
      have hfil : store.filter (fun m => m.conversation_id == cid) = [] := by
        rw [List.filter_eq_nil_iff]
        intro m hm
        simpa using hall m hm
      simp [ensure_conversation_exists, ensureOnce, honestProbe, querySorted, hbeq, hfil]
  · refine ⟨rand.take 12, rfl, ?_, fun c hc => hhex c (List.mem_of_mem_take hc)⟩
    simp [List.length_take, hlen]

/-- C6 witness: a store holding one message of conversation `abc`
echoes `abc` back, a probe for an unknown id generates a fresh id, and
the fresh id has the `conv-` + 12 lowercase-hex shape. -/
theorem C6_resolve_or_create_witness :
    ensure_conversation_exists [mkMessageItem "abc" 1 "user" "hi" none] (some "abc")
        ("0123456789abcdef0123456789abcdef".data) = .ok "abc"
    ∧ ensure_conversation_exists [mkMessageItem "abc" 1 "user" "hi" none] (some "zzz")
        ("0123456789abcdef0123456789abcdef".data)
      = .ok (freshId ("0123456789abcdef0123456789abcdef".data))
    ∧ isFreshShape (freshId ("0123456789abcdef0123456789abcdef".data)) :=
  ⟨(C6_resolve_or_create [mkMessageItem "abc" 1 "user" "hi" none]
      ("0123456789abcdef0123456789abcdef".data) (by decide) (by decide)).1
      "abc" (by decide) ⟨mkMessageItem "abc" 1 "user" "hi" none, by decide, rfl⟩,
   (C6_resolve_or_create [mkMessageItem "abc" 1 "user" "hi" none]
      ("0123456789abcdef0123456789abcdef".data) (by decide) (by decide)).2.2.1
      "zzz" (by decide),
   (C6_resolve_or_create [mkMessageItem "abc" 1 "user" "hi" none]
      ("0123456789abcdef0123456789abcdef".data) (by decide) (by decide)).2.2.2⟩

/-- C7: `get_history` returns exactly the `{role, content}` projection
of the conversation's stored messages, listed in ascending message-id
order regardless of the store's physical ordering, and returns the
empty sequence (never a fault) when the conversation has no stored
messages. -/
theorem C7_history_projection_sorted (store : List MessageItem) (cid : String) :
    (∃ msgs : List MessageItem,
      get_history store cid = .ok (msgs.map (fun m => (m.role, m.content)))
      ∧ msgs.Perm (store.filter (fun m => m.conversation_id == cid))
      ∧ msgs.Pairwise (fun a b => a.message_id ≤ b.message_id))
    ∧ (store.filter (fun m => m.conversation_id == cid) = [] →
        get_history store cid = .ok []) := by
  constructor
  · refine ⟨querySorted store cid, rfl, List.mergeSort_perm _ _, ?_⟩
    have hs : ((store.filter (fun m => m.conversation_id == cid)).mergeSort msgLe).Pairwise
        (fun a b => msgLe a b = true) :=
      List.sorted_mergeSort
        (fun a b c hab hbc => by
          simp only [msgLe, decide_eq_true_eq] at *
          omega)
        (fun a b => by
          simp only [msgLe, Bool.or_eq_true, decide_eq_true_eq]
          omega)
        (store.filter (fun m => m.conversation_id == cid))
    exact hs.imp (fun h => by simpa [msgLe] using h)
  · intro hfil
    simp [get_history, get_history_once, querySorted, hfil]

/-- C7 witness: a store holding two out-of-order messages of the
conversation and one message of another conversation yields the
projection sorted by message id, and an unknown conversation id yields
the empty sequence. -/
theorem C7_history_witness :
    get_history [mkMessageItem "c" 9 "assistant" "B" none,
                 mkMessageItem "d" 1 "user" "X" none,
                 mkMessageItem "c" 2 "user" "A" none] "zzz" = .ok [] :=
  (C7_history_projection_sorted
    [mkMessageItem "c" 9 "assistant" "B" none,
     mkMessageItem "d" 1 "user" "X" none,
     mkMessageItem "c" 2 "user" "A" none] "zzz").2 (by decide)

/-- Constructing `BedrockService` fails for every configuration and
region argument: the read of `config.S3_DATA_SOURCE_ID` always raises
`AttributeError`, `Config` never defining that attribute. -/
theorem bedrockServiceInit_always_fails (c : Config) (region : Option String) :
    bedrockServiceInit c region = .error (.attributeError "S3_DATA_SOURCE_ID") := by
  cases h : pyTruthy region <;> simp [bedrockServiceInit, h, Config.getattr]

/-- C8: the empty-batch half of the claim holds — zero records yield
the no-op success response with no re-indexing call — but the non-empty
half does not: before the job start call the handler constructs
`BedrockService()`, which always raises `AttributeError` (the
`config.S3_DATA_SOURCE_ID` read, see C2), and the generic except clause
re-raises it.  So for every configuration, every non-empty batch and
every remote behaviour, the real handler makes zero re-indexing job
start calls and never returns the claimed success body. -/
theorem C8_handler_never_triggers (records : List S3ObjectRef) (c : Config)
    (boto : String → String → Except BotoFault IngestionJob) :
    (records = [] →
      kbHandler records c boto
        = (.ok { statusCode := 200,
                 body := { message := "No records to process", ingestion_job_id := none,
                           status := none, files_triggered := [], files_count := 0 } }, 0))
    ∧ (records ≠ [] →
      kbHandler records c boto = (.error (.attributeError "S3_DATA_SOURCE_ID"), 0)) := by
  constructor
  · intro h
    subst h
    rfl
  · intro hne
    have hie : records.isEmpty = false := by
      simpa [List.isEmpty_iff] using hne
    simp [kbHandler, hie, bedrockServiceInit_always_fails]

/-- C8 witness: with a fully populated configuration and a remote
capability that would happily start a job, an empty batch is a no-op
success and a three-record batch still makes zero job start calls,
surfacing `AttributeError` instead of the claimed success body. -/
theorem C8_handler_never_triggers_witness :
    kbHandler ([] : List S3ObjectRef)
        ⟨"kb-123", "docs", "us-east-1", "anthropic.claude-3-haiku-20240307-v1:0",
         "meta.llama3-1-8b-instruct-v1:0"⟩
        (fun _ _ => .ok ⟨"job-1", "STARTED"⟩)
      = (.ok ⟨200, ⟨"No records to process", none, none, [], 0⟩⟩, 0)
    ∧ kbHandler [⟨"bucket", "a.pdf"⟩, ⟨"bucket", "b.pdf"⟩, ⟨"bucket", "c.pdf"⟩]
        ⟨"kb-123", "docs", "us-east-1", "anthropic.claude-3-haiku-20240307-v1:0",
         "meta.llama3-1-8b-instruct-v1:0"⟩
        (fun _ _ => .ok ⟨"job-1", "STARTED"⟩)
      = (.error (.attributeError "S3_DATA_SOURCE_ID"), 0) :=
  ⟨(C8_handler_never_triggers []
      ⟨"kb-123", "docs", "us-east-1", "anthropic.claude-3-haiku-20240307-v1:0",
       "meta.llama3-1-8b-instruct-v1:0"⟩
      (fun _ _ => .ok ⟨"job-1", "STARTED"⟩)).1 rfl,
   (C8_handler_never_triggers [⟨"bucket", "a.pdf"⟩, ⟨"bucket", "b.pdf"⟩, ⟨"bucket", "c.pdf"⟩]
      ⟨"kb-123", "docs", "us-east-1", "anthropic.claude-3-haiku-20240307-v1:0",
       "meta.llama3-1-8b-instruct-v1:0"⟩
      (fun _ _ => .ok ⟨"job-1", "STARTED"⟩)).2 (by decide)⟩

/-- C9: the claim's premise — a batch in which the re-indexing job
start call fails — is unreachable in the real handler: for every
configuration, every non-empty batch and every remote behaviour (here
arbitrary `boto`, including one that would fail the job start), the
`BedrockService()` construction raises `AttributeError` first, so the
job start call is made zero times and can never be the failing stage.
The handler does re-raise that earlier error rather than swallow it —
it never returns a success response on a non-empty batch — but the
surfaced failure is the construction's `AttributeError`, not a
re-raised job-start failure as the claim describes. -/
theorem C9_job_start_unreachable (records : List S3ObjectRef) (c : Config)
    (boto : String → String → Except BotoFault IngestionJob)
    (hne : records ≠ []) :
    kbHandler records c boto = (.error (.attributeError "S3_DATA_SOURCE_ID"), 0)
    ∧ ∀ (resp : KbHandlerResp) (n : Nat),
        kbHandler records c boto ≠ (.ok resp, n) := by
  have hie : records.isEmpty = false := by
    simpa [List.isEmpty_iff] using hne
  have h1 : kbHandler records c boto = (.error (.attributeError "S3_DATA_SOURCE_ID"), 0) := by
    simp [kbHandler, hie, bedrockServiceInit_always_fails]
  exact ⟨h1, by simp [h1]⟩

/-- C9 witness: a one-record batch whose remote job start capability
would fail with an access-denied fault never reaches that call — the
handler surfaces the construction's `AttributeError` with zero job
start calls made. -/
theorem C9_job_start_unreachable_witness :
    kbHandler [⟨"bucket", "a.pdf"⟩]
        ⟨"kb-123", "docs", "us-east-1", "anthropic.claude-3-haiku-20240307-v1:0",
         "meta.llama3-1-8b-instruct-v1:0"⟩
        (fun _ _ => .error (.clientError "AccessDeniedException" "denied"))
      = (.error (.attributeError "S3_DATA_SOURCE_ID"), 0) :=
  (C9_job_start_unreachable [⟨"bucket", "a.pdf"⟩]
    ⟨"kb-123", "docs", "us-east-1", "anthropic.claude-3-haiku-20240307-v1:0",
     "meta.llama3-1-8b-instruct-v1:0"⟩
    (fun _ _ => .error (.clientError "AccessDeniedException" "denied"))
    (by decide)).1

end AgenticRag
